import Mathlib

/-
Verification of the per-thread statistics collector in
ml_metadata/tools/mlmd_bench/stats.cc (class ThreadStats).

Modelling conventions:
* int64 counters (done_, bytes_, next_report_, approx_total_done) are
  modelled as Int; the spec (section 7) assumes fixed-width arithmetic
  never overflows for realistic benchmark sizes, so no wrap-around is
  modelled.
* absl Duration values are modelled as Int nanoseconds, absl Time values
  as Int nanoseconds since the unix epoch.  The absl division of a
  Duration by a Duration (used as the conversion to a whole count of
  microseconds) returns int64 and truncates toward zero; it is modelled
  with Int.tdiv, which also truncates toward zero.  C++ int64 division
  likewise truncates toward zero and is modelled with Int.tdiv.
* IEEE double arithmetic is modelled exactly over the rationals, with an
  explicit value for positive infinity as produced by dividing a positive
  finite value by zero.  The double literal 1e-6 is modelled as the exact
  rational 1/1000000 (double rounding error is abstracted away; every
  concrete value in the claims is far from any rounding boundary).
* stream output is modelled by returning a description of what is
  written: Update returns a Bool flag saying whether the progress line
  was written, Report returns either an error-log marker or the printed
  report line together with the populated result record.
-/

/-- Model of one per-operation measurement (struct OpStats): a byte count
and the busy time of the operation, in nanoseconds. -/
structure OpStats where
  transferred_bytes : Int
  elapsed_time : Int
deriving DecidableEq, Repr

/-- Model of the mutable state of class ThreadStats: accumulated busy time
in nanoseconds, operation count, byte count, start and finish wall-clock
times in nanoseconds since the epoch, and the progress-report watermark. -/
structure ThreadStats where
  accumulated_elapsed_time_ : Int
  done_ : Int
  bytes_ : Int
  start_ : Int
  finish_ : Int
  next_report_ : Int
deriving DecidableEq, Repr

namespace ThreadStats

/-- Model of the ThreadStats constructor: zero accumulated time, counts and
bytes, watermark 100.  The C++ constructor leaves start_ and finish_ at the
default absl Time, the unix epoch, modelled as 0. -/
def init : ThreadStats :=
  { accumulated_elapsed_time_ := 0, done_ := 0, bytes_ := 0,
    start_ := 0, finish_ := 0, next_report_ := 100 }

/-- Model of ThreadStats.Start: records the current wall-clock time (passed
explicitly) as start_. -/
def Start (s : ThreadStats) (now : Int) : ThreadStats :=
  { s with start_ := now }

/-- Model of ThreadStats.Stop: records the current wall-clock time (passed
explicitly) as finish_. -/
def Stop (s : ThreadStats) (now : Int) : ThreadStats :=
  { s with finish_ := now }

/-- The static table of progress-report magnitude bands in Update. -/
def report_thresholds : List Int :=
  [1000, 5000, 10000, 50000, 100000, 500000, 1000000]

/-- Model of ThreadStats.Update.  Adds the measurement into the counters,
then, unless approx_total_done is still below the watermark next_report_,
writes a progress line and advances the watermark by one tenth of the
entry of the band table at threshold_index, a local variable that is
always 0 at that point.  (The source increments threshold_index after
advancing the watermark, but the variable is local to the call and the
increment is dead code; it is reproduced here as the unused value
threshold_index_after.)  The returned Bool is true exactly when the
progress line is written. -/
def Update (s : ThreadStats) (op_stats : OpStats) (approx_total_done : Int) :
    ThreadStats × Bool :=
  let s1 : ThreadStats :=
    { s with bytes_ := s.bytes_ + op_stats.transferred_bytes,
             accumulated_elapsed_time_ :=
               s.accumulated_elapsed_time_ + op_stats.elapsed_time,
             done_ := s.done_ + 1 }
  let threshold_index : Nat := 0
  if approx_total_done < s1.next_report_ then
    (s1, false)
  else
    let s2 : ThreadStats :=
      { s1 with next_report_ :=
          s1.next_report_ + Int.tdiv (report_thresholds.getD threshold_index 0) 10 }
    let threshold_index_after : Nat :=
      if s2.next_report_ > report_thresholds.getD threshold_index 0 then
        threshold_index + 1
      else threshold_index
    let _ := threshold_index_after
    (s2, true)

/-- Model of ThreadStats.Merge: sums done_, bytes_ and
accumulated_elapsed_time_, keeps the earliest start_ and the latest
finish_.  The watermark next_report_ of the receiver is untouched. -/
def Merge (s other : ThreadStats) : ThreadStats :=
  { s with done_ := s.done_ + other.done_,
           bytes_ := s.bytes_ + other.bytes_,
           accumulated_elapsed_time_ :=
             s.accumulated_elapsed_time_ + other.accumulated_elapsed_time_,
           start_ := min s.start_ other.start_,
           finish_ := max s.finish_ other.finish_ }

end ThreadStats

/-- Model of an IEEE double value arising in Report: either an exact finite
rational value or positive infinity, the result of dividing a positive
finite value by positive zero. -/
inductive DoubleVal where
  | fin : ℚ → DoubleVal
  | inf : DoubleVal
deriving DecidableEq, Repr

/-- IEEE double division x / y for a numerator x that is positive at every
call site: positive infinity when y = 0, the exact quotient otherwise. -/
def ddiv (x y : ℚ) : DoubleVal :=
  if y = 0 then DoubleVal.inf else DoubleVal.fin (x / y)

/-- Division of a (possibly infinite) double by a positive finite constant,
as used to format the KB/s rate: infinity divided by 1024 is infinity. -/
def DoubleVal.divBy : DoubleVal → ℚ → DoubleVal
  | DoubleVal.fin q, c => DoubleVal.fin (q / c)
  | DoubleVal.inf, _ => DoubleVal.inf

/-- Model of the two performance fields of the WorkloadConfigResult proto
that Report populates. -/
structure WorkloadConfigResult where
  bytes_per_second : DoubleVal
  microseconds_per_operation : ℚ
deriving DecidableEq, Repr

/-- Model of the report line printed to stdout: the label, the
microseconds-per-operation figure, and the optional KB/s rate clause,
present exactly when the workload transferred bytes. -/
structure ReportLine where
  label : String
  micros_per_op : ℚ
  rate : Option DoubleVal
deriving DecidableEq, Repr

/-- Observable outcome of Report: either the error log line written when no
operation was recorded (no report line, result record untouched), or the
printed report line together with the populated result record. -/
inductive ReportResult where
  | err : ReportResult
  | ok : ReportLine → WorkloadConfigResult → ReportResult
deriving DecidableEq, Repr

/-- The populated result record of a Report outcome, if any. -/
def ReportResult.summary : ReportResult → Option WorkloadConfigResult
  | ReportResult.err => none
  | ReportResult.ok _ r => some r

/-- The printed report line of a Report outcome, if any. -/
def ReportResult.line : ReportResult → Option ReportLine
  | ReportResult.err => none
  | ReportResult.ok l _ => some l

namespace ThreadStats

/-- Model of ThreadStats.Report.  If done_ is 0 it logs an error and
returns.  Otherwise microseconds_per_operation is the truncating int64
division of the whole-microsecond count of accumulated_elapsed_time_ by
done_ (absl Duration divided by Duration yields a truncated int64, and the
subsequent division by done_ is C++ int64 division); bytes_per_second
starts at 0.0 and, when bytes_ is positive, becomes bytes_ divided by
elapsed_seconds, the whole-microsecond count of finish_ - start_ scaled by
1e-6 (infinity when that span is below one microsecond).  The collector
state is returned unchanged alongside the observable outcome. -/
def Report (s : ThreadStats) (specification : String) :
    ThreadStats × ReportResult :=
  if s.done_ = 0 then
    (s, ReportResult.err)
  else
    let microseconds_per_operation : ℚ :=
      ((Int.tdiv (Int.tdiv s.accumulated_elapsed_time_ 1000) s.done_ : Int) : ℚ)
    if s.bytes_ > 0 then
      let elapsed_seconds : ℚ :=
        ((Int.tdiv (s.finish_ - s.start_) 1000 : Int) : ℚ) * (1 / 1000000)
      let bytes_per_second : DoubleVal := ddiv (s.bytes_ : ℚ) elapsed_seconds
      (s, ReportResult.ok
            { label := specification,
              micros_per_op := microseconds_per_operation,
              rate := some (bytes_per_second.divBy 1024) }
            { bytes_per_second := bytes_per_second,
              microseconds_per_operation := microseconds_per_operation })
    else
      (s, ReportResult.ok
            { label := specification,
              micros_per_op := microseconds_per_operation,
              rate := none }
            { bytes_per_second := DoubleVal.fin 0,
              microseconds_per_operation := microseconds_per_operation })

/-- Folding a whole sequence of Update calls over a collector, discarding
the progress-line flags. -/
def runUpdates (s : ThreadStats) (l : List (OpStats × Int)) : ThreadStats :=
  l.foldl (fun acc p => (acc.Update p.1 p.2).1) s

end ThreadStats

/-- Helper: the counter fields of the state returned by Update, in either
branch of the watermark test. -/
theorem update_counter_fields (s : ThreadStats) (op_stats : OpStats)
    (approx_total_done : Int) :
    (s.Update op_stats approx_total_done).1.done_ = s.done_ + 1 ∧
    (s.Update op_stats approx_total_done).1.bytes_ =
      s.bytes_ + op_stats.transferred_bytes ∧
    (s.Update op_stats approx_total_done).1.accumulated_elapsed_time_ =
      s.accumulated_elapsed_time_ + op_stats.elapsed_time := by
  simp only [ThreadStats.Update]
  split <;> simp

/-- Helper: counters accumulated by a sequence of Update calls starting
from an arbitrary state. -/
theorem runUpdates_counter_fields (l : List (OpStats × Int)) (s : ThreadStats) :
    (s.runUpdates l).done_ = s.done_ + l.length ∧
    (s.runUpdates l).bytes_ =
      s.bytes_ + (l.map fun p => p.1.transferred_bytes).sum ∧
    (s.runUpdates l).accumulated_elapsed_time_ =
      s.accumulated_elapsed_time_ + (l.map fun p => p.1.elapsed_time).sum := by
  induction l generalizing s with
  | nil => simp [ThreadStats.runUpdates]
  | cons p t ih =>
    obtain ⟨h1, h2, h3⟩ := ih (s.Update p.1 p.2).1
    obtain ⟨u1, u2, u3⟩ := update_counter_fields s p.1 p.2
    simp only [ThreadStats.runUpdates, List.foldl_cons] at h1 h2 h3 ⊢
    refine ⟨?_, ?_, ?_⟩
    · rw [h1, u1]; push_cast [List.length_cons]; ring
    · rw [h2, u2]; simp; ring
    · rw [h3, u3]; simp; ring

/-- C3: Update writes a progress line exactly when approx_total_done has
reached the watermark next_report_ at entry; when it writes one, the
watermark advances by exactly 100 (one tenth of the first band value 1000,
the band index being local to the call and never persisted), and otherwise
the watermark is unchanged. -/
theorem C3_update_watermark (s : ThreadStats) (op_stats : OpStats)
    (approx_total_done : Int) :
    ((s.Update op_stats approx_total_done).2 = true ↔
      s.next_report_ ≤ approx_total_done) ∧
    (s.Update op_stats approx_total_done).1.next_report_ =
      (if s.next_report_ ≤ approx_total_done then s.next_report_ + 100
       else s.next_report_) := by
  by_cases h : approx_total_done < s.next_report_
  · simp [ThreadStats.Update, h, not_le.mpr h]
  · have h2 : s.next_report_ ≤ approx_total_done := not_lt.mp h
    have h3 : Int.tdiv 1000 10 = 100 := by decide
    simp [ThreadStats.Update, ThreadStats.report_thresholds, h, h2, h3]

/-- Witness for C3 at a concrete input: the watermark of a fresh collector
is 100, an Update with approx_total_done = 100 writes the progress line and
moves the watermark to 200. -/
theorem C3_update_watermark_witness :
    ((ThreadStats.init.Update { transferred_bytes := 7, elapsed_time := 9 }
        100).2 = true ↔ ThreadStats.init.next_report_ ≤ 100) ∧
    (ThreadStats.init.Update { transferred_bytes := 7, elapsed_time := 9 }
        100).1.next_report_ =
      (if ThreadStats.init.next_report_ ≤ (100 : Int) then
        ThreadStats.init.next_report_ + 100
       else ThreadStats.init.next_report_) :=
  C3_update_watermark ThreadStats.init
    { transferred_bytes := 7, elapsed_time := 9 } 100

/-- C5: after any sequence of N Update calls on a freshly constructed
collector, whatever the approx_total_done arguments, done_ equals N,
bytes_ equals the sum of the transferred_bytes inputs, and
accumulated_elapsed_time_ equals the sum of the elapsed_time inputs. -/
theorem C5_update_exact_sums (l : List (OpStats × Int)) :
    (ThreadStats.init.runUpdates l).done_ = l.length ∧
    (ThreadStats.init.runUpdates l).bytes_ =
      (l.map fun p => p.1.transferred_bytes).sum ∧
    (ThreadStats.init.runUpdates l).accumulated_elapsed_time_ =
      (l.map fun p => p.1.elapsed_time).sum := by
  have h := runUpdates_counter_fields l ThreadStats.init
  simpa [ThreadStats.init] using h

/-- Witness for C5 at a concrete input: two updates of 10 and 20 bytes with
busy times 100 and 300 ns give done_ = 2, bytes_ = 30 and accumulated busy
time 400 ns. -/
theorem C5_update_exact_sums_witness :
    (ThreadStats.init.runUpdates
        [({ transferred_bytes := 10, elapsed_time := 100 }, 1),
         ({ transferred_bytes := 20, elapsed_time := 300 }, 2)]).done_ = 2 ∧
    (ThreadStats.init.runUpdates
        [({ transferred_bytes := 10, elapsed_time := 100 }, 1),
         ({ transferred_bytes := 20, elapsed_time := 300 }, 2)]).bytes_ = 30 ∧
    (ThreadStats.init.runUpdates
        [({ transferred_bytes := 10, elapsed_time := 100 }, 1),
         ({ transferred_bytes := 20, elapsed_time := 300 }, 2)]).accumulated_elapsed_time_ = 400 := by
  have h := C5_update_exact_sums
    [({ transferred_bytes := 10, elapsed_time := 100 }, 1),
     ({ transferred_bytes := 20, elapsed_time := 300 }, 2)]
  simpa using h

/-- C6: after merging collector B into collector A, the three counters are
the arithmetic sums of the operands, start_ is the earlier start and
finish_ is the later finish. -/
theorem C6_merge_field_values (A B : ThreadStats) :
    (A.Merge B).done_ = A.done_ + B.done_ ∧
    (A.Merge B).bytes_ = A.bytes_ + B.bytes_ ∧
    (A.Merge B).accumulated_elapsed_time_ =
      A.accumulated_elapsed_time_ + B.accumulated_elapsed_time_ ∧
    (A.Merge B).start_ = min A.start_ B.start_ ∧
    (A.Merge B).finish_ = max A.finish_ B.finish_ :=
  ⟨rfl, rfl, rfl, rfl, rfl⟩

/-- Witness for C6 at the concrete scenario of the spec: merging A with 5
operations, 500 bytes, span 0 to 2 s into B with 3 operations, 300 bytes,
span 1 s to 4 s gives 8 operations, 800 bytes and span 0 to 4 s. -/
theorem C6_merge_field_values_witness :
    (ThreadStats.Merge
        { accumulated_elapsed_time_ := 10, done_ := 5, bytes_ := 500,
          start_ := 0, finish_ := 2000000000, next_report_ := 100 }
        { accumulated_elapsed_time_ := 20, done_ := 3, bytes_ := 300,
          start_ := 1000000000, finish_ := 4000000000, next_report_ := 100 }).done_ = 8 ∧
    (ThreadStats.Merge
        { accumulated_elapsed_time_ := 10, done_ := 5, bytes_ := 500,
          start_ := 0, finish_ := 2000000000, next_report_ := 100 }
        { accumulated_elapsed_time_ := 20, done_ := 3, bytes_ := 300,
          start_ := 1000000000, finish_ := 4000000000, next_report_ := 100 }).bytes_ = 800 ∧
    (ThreadStats.Merge
        { accumulated_elapsed_time_ := 10, done_ := 5, bytes_ := 500,
          start_ := 0, finish_ := 2000000000, next_report_ := 100 }
        { accumulated_elapsed_time_ := 20, done_ := 3, bytes_ := 300,
          start_ := 1000000000, finish_ := 4000000000, next_report_ := 100 }).start_ = 0 ∧
    (ThreadStats.Merge
        { accumulated_elapsed_time_ := 10, done_ := 5, bytes_ := 500,
          start_ := 0, finish_ := 2000000000, next_report_ := 100 }
        { accumulated_elapsed_time_ := 20, done_ := 3, bytes_ := 300,
          start_ := 1000000000, finish_ := 4000000000, next_report_ := 100 }).finish_ = 4000000000 := by
  have h := C6_merge_field_values
    { accumulated_elapsed_time_ := 10, done_ := 5, bytes_ := 500,
      start_ := 0, finish_ := 2000000000, next_report_ := 100 }
    { accumulated_elapsed_time_ := 20, done_ := 3, bytes_ := 300,
      start_ := 1000000000, finish_ := 4000000000, next_report_ := 100 }
  obtain ⟨h1, h2, h3, h4, h5⟩ := h
  exact ⟨h1.trans (by decide), h2.trans (by decide),
         h4.trans (by decide), h5.trans (by decide)⟩

/-- C7: Merge is commutative and associative on the five merged fields
(done_, bytes_, accumulated_elapsed_time_, start_, finish_), so any order
or grouping of pairwise merges gives identical values for those fields. -/
theorem C7_merge_comm_assoc :
    (∀ A B : ThreadStats,
      (A.Merge B).done_ = (B.Merge A).done_ ∧
      (A.Merge B).bytes_ = (B.Merge A).bytes_ ∧
      (A.Merge B).accumulated_elapsed_time_ =
        (B.Merge A).accumulated_elapsed_time_ ∧
      (A.Merge B).start_ = (B.Merge A).start_ ∧
      (A.Merge B).finish_ = (B.Merge A).finish_) ∧
    (∀ A B D : ThreadStats,
      ((A.Merge B).Merge D).done_ = (A.Merge (B.Merge D)).done_ ∧
      ((A.Merge B).Merge D).bytes_ = (A.Merge (B.Merge D)).bytes_ ∧
      ((A.Merge B).Merge D).accumulated_elapsed_time_ =
        (A.Merge (B.Merge D)).accumulated_elapsed_time_ ∧
      ((A.Merge B).Merge D).start_ = (A.Merge (B.Merge D)).start_ ∧
      ((A.Merge B).Merge D).finish_ = (A.Merge (B.Merge D)).finish_) := by
  constructor
  · intro A B
    refine ⟨?_, ?_, ?_, ?_, ?_⟩ <;>
      simp [ThreadStats.Merge, add_comm, min_comm, max_comm]
  · intro A B D
    refine ⟨?_, ?_, ?_, ?_, ?_⟩ <;>
      simp [ThreadStats.Merge, add_assoc, min_assoc, max_assoc]

/-- Witness for C7 at concrete inputs: commutativity instantiated on two
concrete collectors. -/
theorem C7_merge_comm_assoc_witness :
    (ThreadStats.Merge
        { accumulated_elapsed_time_ := 1, done_ := 2, bytes_ := 3,
          start_ := 4, finish_ := 9, next_report_ := 100 }
        { accumulated_elapsed_time_ := 5, done_ := 6, bytes_ := 7,
          start_ := 8, finish_ := 3, next_report_ := 100 }).done_ =
      (ThreadStats.Merge
        { accumulated_elapsed_time_ := 5, done_ := 6, bytes_ := 7,
          start_ := 8, finish_ := 3, next_report_ := 100 }
        { accumulated_elapsed_time_ := 1, done_ := 2, bytes_ := 3,
          start_ := 4, finish_ := 9, next_report_ := 100 }).done_ :=
  (C7_merge_comm_assoc.1
    { accumulated_elapsed_time_ := 1, done_ := 2, bytes_ := 3,
      start_ := 4, finish_ := 9, next_report_ := 100 }
    { accumulated_elapsed_time_ := 5, done_ := 6, bytes_ := 7,
      start_ := 8, finish_ := 3, next_report_ := 100 }).1

/-- C8: Report on a collector that recorded no operation returns the
error-log outcome with the collector unchanged: no report line is printed,
no division is reached, and the result record is not populated. -/
theorem C8_report_zero_operations (s : ThreadStats) (lbl : String)
    (h : s.done_ = 0) :
    s.Report lbl = (s, ReportResult.err) := by
  simp only [ThreadStats.Report, if_pos h]

/-- Witness for C8: a freshly constructed collector has done_ = 0 and its
Report is the error outcome with the state unchanged. -/
theorem C8_report_zero_operations_witness :
    ThreadStats.init.done_ = 0 ∧
    ThreadStats.init.Report "never_ran" = (ThreadStats.init, ReportResult.err) :=
  ⟨rfl, C8_report_zero_operations ThreadStats.init "never_ran" rfl⟩

/-- C9: Report on a collector with operations but no transferred bytes
stores bytes_per_second = 0 in the result record and prints the line with
the label and the microseconds-per-operation figure but with no KB/s rate
clause. -/
theorem C9_report_zero_bytes (s : ThreadStats) (lbl : String)
    (hd : 0 < s.done_) (hb : s.bytes_ = 0) :
    (s.Report lbl).2 =
      ReportResult.ok
        { label := lbl,
          micros_per_op :=
            ((Int.tdiv (Int.tdiv s.accumulated_elapsed_time_ 1000) s.done_ : Int) : ℚ),
          rate := none }
        { bytes_per_second := DoubleVal.fin 0,
          microseconds_per_operation :=
            ((Int.tdiv (Int.tdiv s.accumulated_elapsed_time_ 1000) s.done_ : Int) : ℚ) } := by
  simp only [ThreadStats.Report,
    if_neg (by omega : ¬ s.done_ = 0), if_neg (by omega : ¬ s.bytes_ > 0)]

/-- Witness for C9 at the spec scenario: three operations with busy times
100, 200, 300 microseconds (600000 ns total) and no bytes give a line with
microseconds-per-operation 200 and no rate clause, and a record with
bytes_per_second 0. -/
theorem C9_report_zero_bytes_witness :
    (0 : Int) < 3 ∧
    (({ accumulated_elapsed_time_ := 600000, done_ := 3, bytes_ := 0,
        start_ := 0, finish_ := 1000, next_report_ := 100 } : ThreadStats).Report
      "no_bytes").2 =
      ReportResult.ok
        { label := "no_bytes", micros_per_op := 200, rate := none }
        { bytes_per_second := DoubleVal.fin 0,
          microseconds_per_operation := 200 } :=
  ⟨by decide,
   (C9_report_zero_bytes
      { accumulated_elapsed_time_ := 600000, done_ := 3, bytes_ := 0,
        start_ := 0, finish_ := 1000, next_report_ := 100 }
      "no_bytes" (by decide) rfl).trans (by decide)⟩

/-- C10: Report never mutates the collector: all six fields are unchanged,
and the result record is populated exactly when at least one operation was
recorded. -/
theorem C10_report_preserves_state (s : ThreadStats) (lbl : String) :
    (s.Report lbl).1.accumulated_elapsed_time_ = s.accumulated_elapsed_time_ ∧
    (s.Report lbl).1.done_ = s.done_ ∧
    (s.Report lbl).1.bytes_ = s.bytes_ ∧
    (s.Report lbl).1.start_ = s.start_ ∧
    (s.Report lbl).1.finish_ = s.finish_ ∧
    (s.Report lbl).1.next_report_ = s.next_report_ ∧
    (((s.Report lbl).2).summary.isSome = true ↔ ¬ s.done_ = 0) := by
  simp only [ThreadStats.Report]
  by_cases h : s.done_ = 0
  · simp [h, ReportResult.summary]
  · by_cases hb : s.bytes_ > 0 <;>
      simp [h, hb, ReportResult.summary]

/-- Witness for C10 at a concrete input: Report leaves a concrete stopped
collector exactly as it was and populates the record since done_ = 2. -/
theorem C10_report_preserves_state_witness :
    (({ accumulated_elapsed_time_ := 5000, done_ := 2, bytes_ := 64,
        start_ := 0, finish_ := 2000, next_report_ := 100 } : ThreadStats).Report
      "frame").1.done_ = 2 := by
  have h := C10_report_preserves_state
    { accumulated_elapsed_time_ := 5000, done_ := 2, bytes_ := 64,
      start_ := 0, finish_ := 2000, next_report_ := 100 } "frame"
  exact h.2.1.trans (by decide)


/-- C1 (code-bug evidence): on a collector with one operation, one byte
transferred and finish_ equal to start_, Report stores positive infinity
as bytes_per_second, not 0.  The source divides bytes_ by an
elapsed_seconds of 0.0, although the comment directly above the division
in stats.cc states that bytes_per_second will remain 0 in that case. -/
theorem C1_zero_span_gives_infinity :
    ((({ accumulated_elapsed_time_ := 1000, done_ := 1, bytes_ := 1,
         start_ := 5, finish_ := 5, next_report_ := 100 } : ThreadStats).Report
      "instant").2).summary =
      some { bytes_per_second := DoubleVal.inf,
             microseconds_per_operation := 1 } := by
  simp [ThreadStats.Report, ddiv, ReportResult.summary]

/-- C2 counterexample: a collector with 100 microseconds of accumulated
busy time (100000 ns) and 3 operations stores 33 as
microseconds_per_operation, while the exact average of the busy time in
microseconds over the operations is 100/3; the stored value is the
truncated integer quotient, not the exact average. -/
theorem C2_exact_average_counterexample :
    ((((({ accumulated_elapsed_time_ := 100000, done_ := 3, bytes_ := 0,
           start_ := 0, finish_ := 10, next_report_ := 100 } : ThreadStats).Report
        "avg").2).summary.map fun r => r.microseconds_per_operation) =
      some 33) ∧
    ¬ ((33 : ℚ) = (100000 : ℚ) / 1000 / 3) := by
  constructor
  · have h : Int.tdiv (Int.tdiv 100000 1000) 3 = 33 := by decide
    simp [ThreadStats.Report, ReportResult.summary, h]
  · norm_num

/-- C2 (amended): for every collector with at least one operation, Report
stores as microseconds_per_operation the truncating integer division of
the whole-microsecond count of accumulated_elapsed_time_ by done_; this
coincides with the exact average per-operation busy time exactly in the
divisible case: whenever done_ divides the whole-microsecond count, the
stored value equals that count divided by done_ as rationals. -/
theorem C2_micros_per_op_truncated (s : ThreadStats) (lbl : String)
    (h : ¬ s.done_ = 0) :
    ((((s.Report lbl).2).summary.map fun r => r.microseconds_per_operation) =
      some ((Int.tdiv (Int.tdiv s.accumulated_elapsed_time_ 1000) s.done_ : Int) : ℚ)) ∧
    (s.done_ ∣ Int.tdiv s.accumulated_elapsed_time_ 1000 →
      ((Int.tdiv (Int.tdiv s.accumulated_elapsed_time_ 1000) s.done_ : Int) : ℚ) =
        ((Int.tdiv s.accumulated_elapsed_time_ 1000 : Int) : ℚ) / (s.done_ : ℚ)) := by
  constructor
  · simp only [ThreadStats.Report, if_neg h]
    by_cases hb : s.bytes_ > 0 <;> simp [hb, ReportResult.summary]
  · rintro ⟨c, hc⟩
    rw [hc, Int.mul_tdiv_cancel_left c h]
    have hdq : (s.done_ : ℚ) ≠ 0 := Int.cast_ne_zero.mpr h
    push_cast
    rw [mul_comm, mul_div_assoc, div_self hdq, mul_one]

/-- Witness for C2 (amended) at the spec scenario: 600 microseconds of
busy time over 3 operations store exactly 200, the divisible case where
the truncated quotient is the exact average. -/
theorem C2_micros_per_op_truncated_witness :
    ¬ (({ accumulated_elapsed_time_ := 600000, done_ := 3, bytes_ := 0,
          start_ := 0, finish_ := 10, next_report_ := 100 } : ThreadStats).done_ = 0) ∧
    ((((({ accumulated_elapsed_time_ := 600000, done_ := 3, bytes_ := 0,
           start_ := 0, finish_ := 10, next_report_ := 100 } : ThreadStats).Report
        "avg600").2).summary.map fun r => r.microseconds_per_operation) =
      some 200) :=
  ⟨by decide,
   ((C2_micros_per_op_truncated
      { accumulated_elapsed_time_ := 600000, done_ := 3, bytes_ := 0,
        start_ := 0, finish_ := 10, next_report_ := 100 }
      "avg600" (by decide)).1).trans (by decide)⟩

/-- C4 counterexample: a collector with 3 bytes over a wall-clock span of
1500 ns stores bytes_per_second = 3000000, the quotient by the span
truncated to 1 whole microsecond, while dividing by the span expressed in
seconds (1500/1000000000 s) would give 2000000. -/
theorem C4_wall_clock_counterexample :
    ((((({ accumulated_elapsed_time_ := 1000, done_ := 1, bytes_ := 3,
           start_ := 0, finish_ := 1500, next_report_ := 100 } : ThreadStats).Report
        "span").2).summary.map fun r => r.bytes_per_second) =
      some (DoubleVal.fin 3000000)) ∧
    ¬ (DoubleVal.fin 3000000 =
        DoubleVal.fin ((3 : ℚ) / ((1500 : ℚ) / 1000000000))) := by
  constructor
  · have h : Int.tdiv 1500 1000 = 1 := by decide
    simp [ThreadStats.Report, ddiv, ReportResult.summary, h]
    norm_num
  · simp only [DoubleVal.fin.injEq]
    norm_num

/-- C4 (amended): for every collector with at least one operation, a
positive byte count and a wall-clock span of at least one whole
microsecond, Report stores bytes_per_second = total bytes divided by the
span truncated to whole microseconds and expressed in seconds — a quotient
by the wall-clock span of the run, not by the sum of per-thread busy
times (accumulated_elapsed_time_ does not occur in the value). -/
theorem C4_bytes_per_second_wall_clock (s : ThreadStats) (lbl : String)
    (hd : 0 < s.done_) (hb : 0 < s.bytes_)
    (hspan : 1000 ≤ s.finish_ - s.start_) :
    (((s.Report lbl).2).summary.map fun r => r.bytes_per_second) =
      some (DoubleVal.fin
        ((s.bytes_ : ℚ) * 1000000 /
          ((Int.tdiv (s.finish_ - s.start_) 1000 : Int) : ℚ))) := by
  have husec : (1 : ℤ) ≤ Int.tdiv (s.finish_ - s.start_) 1000 := by
    rw [Int.tdiv_eq_ediv (by omega) (by omega)]
    exact (Int.le_ediv_iff_mul_le (by omega)).mpr (by omega)
  have huq : ((Int.tdiv (s.finish_ - s.start_) 1000 : Int) : ℚ) ≠ 0 :=
    Int.cast_ne_zero.mpr (by omega)
  have hsec : ((Int.tdiv (s.finish_ - s.start_) 1000 : Int) : ℚ) *
      (1 / 1000000) ≠ 0 := by
    intro h0
    rcases mul_eq_zero.mp h0 with h | h
    · exact huq h
    · norm_num at h
  simp only [ThreadStats.Report, if_neg (by omega : ¬ s.done_ = 0), if_pos hb,
    ddiv, if_neg hsec]
  simp only [ReportResult.summary, Option.map]
  congr 2
  field_simp

/-- Witness for C4 (amended) at the spec scenario: 1 MiB transferred over
exactly one second of wall-clock span stores bytes_per_second = 1048576. -/
theorem C4_bytes_per_second_wall_clock_witness :
    (0 : Int) <
      ({ accumulated_elapsed_time_ := 1000, done_ := 1, bytes_ := 1048576,
         start_ := 0, finish_ := 1000000000, next_report_ := 100 } : ThreadStats).done_ ∧
    (0 : Int) <
      ({ accumulated_elapsed_time_ := 1000, done_ := 1, bytes_ := 1048576,
         start_ := 0, finish_ := 1000000000, next_report_ := 100 } : ThreadStats).bytes_ ∧
    ((1000 : Int) ≤
      ({ accumulated_elapsed_time_ := 1000, done_ := 1, bytes_ := 1048576,
         start_ := 0, finish_ := 1000000000, next_report_ := 100 } : ThreadStats).finish_ -
      ({ accumulated_elapsed_time_ := 1000, done_ := 1, bytes_ := 1048576,
         start_ := 0, finish_ := 1000000000, next_report_ := 100 } : ThreadStats).start_) ∧
    ((((({ accumulated_elapsed_time_ := 1000, done_ := 1, bytes_ := 1048576,
           start_ := 0, finish_ := 1000000000, next_report_ := 100 } : ThreadStats).Report
        "mib").2).summary.map fun r => r.bytes_per_second) =
      some (DoubleVal.fin 1048576)) := by
  refine ⟨by decide, by decide, by decide, ?_⟩
  have h := C4_bytes_per_second_wall_clock
    { accumulated_elapsed_time_ := 1000, done_ := 1, bytes_ := 1048576,
      start_ := 0, finish_ := 1000000000, next_report_ := 100 }
    "mib" (by decide) (by decide) (by decide)
  rw [h]
  have ht : Int.tdiv (1000000000 : Int) 1000 = 1000000 := by decide
  norm_num [ht]
